import Mathlib

/-!
Verification of the tool-proxy dispatch layer of `src/server/proxy_server.py`.

The broker keeps two module-level Python dicts,
`sessions : Dict[str, ClientSession]` and `tool_mapping : Dict[str, str]`
(lines 126-127).  `initialize_servers` (lines 139-257) iterates over the
configured child specs with `enumerate`, attempts spawn / session setup /
handshake / tool listing for each under 10-second timeouts, stores the
session under the server name and registers every advertised tool name to
that server name.  `proxy_tool_call` (lines 260-299) resolves a tool name in
`tool_mapping`, looks the owning session up in `sessions` and forwards the
call under a 30-second timeout, converting every failure into a returned
string.  `load_server_config` (lines 71-119) loads the child-spec list and
returns the empty list on every failure.

Python dicts are modelled as association lists with first-occurrence lookup
and in-place replacement on re-assignment (Python assignment semantics);
the child processes and the MCP SDK are modelled as environments: functions
that say how each spawn / handshake / tool-listing attempt and each
forwarded call turns out.
-/

namespace ProxyServer

/-- Python dict lookup `d[k]` / `k in d`: the value at the first (unique)
occurrence of the key. -/
def dictGet {β : Type} (k : String) : List (String × β) → Option β
  | [] => none
  | (k1, v1) :: rest => if k1 = k then some v1 else dictGet k rest

/-- Python dict assignment `d[k] = v`: replaces the value in place when the
key is present, otherwise appends the new binding (insertion order). -/
def dictInsert {β : Type} (k : String) (v : β) : List (String × β) → List (String × β)
  | [] => [(k, v)]
  | (k1, v1) :: rest => if k1 = k then (k, v) :: rest else (k1, v1) :: dictInsert k v rest

/-- Python `list(d.keys())`: the keys in insertion order. -/
def dictKeys {β : Type} (d : List (String × β)) : List String :=
  d.map (fun p => p.1)

/-- Python `repr` of a string: the text between single quotes. -/
def pyStrRepr (s : String) : String :=
  "\x27" ++ s ++ "\x27"

/-- Python `repr` of a list of strings, as interpolated into an f-string:
`[\x27a\x27, \x27b\x27]`. -/
def pyListRepr (xs : List String) : String :=
  "[" ++ String.intercalate ", " (xs.map pyStrRepr) ++ "]"

/-- The per-call timeout of `asyncio.wait_for(session.call_tool(...), timeout=30)`
at line 288 of proxy_server.py. -/
def CALL_TIMEOUT : Nat := 30

/-- The per-step handshake timeout (`timeout=10`) used at lines 206, 215, 223
and 234 of proxy_server.py for spawn, session setup, initialize and
tool listing. -/
def HANDSHAKE_TIMEOUT : Nat := 10

/-- One entry of the configured server list: `server.get("name")` (absent
names fall back to `Server-i`) and `server.get("script", "")`. -/
structure ChildSpec where
  name : Option String
  script : String
  deriving DecidableEq, Repr

/-- The broker's mutable module-level state: the session table
`sessions : Dict[str, ClientSession]` (sessions are identified by an
abstract id) and the registry `tool_mapping : Dict[str, str]` from tool
name to owning server name (lines 126-127). -/
structure ProxyState where
  sessions : List (String × Nat)
  tool_mapping : List (String × String)
  deriving DecidableEq, Repr

/-- How one child's startup attempt turns out, seen from the `try` block of
`initialize_servers` (lines 163-257): `earlyFail` is a timeout or exception
at spawn, session setup or the initialize handshake (before
`sessions[server_name] = session` at line 226); `listFail` is a timeout or
exception at `list_tools` (line 232), after the session was stored;
`ok tools` is a full success advertising the given tool names. -/
inductive InitOutcome where
  | earlyFail
  | listFail
  | ok (tools : List String)
  deriving DecidableEq, Repr

/-- The environment `initialize_servers` runs against: whether a script path
resolves on disk (lines 167-177), how the spawn/handshake/listing attempt
for a spec turns out under the given per-step timeout, and which session
object the attempt produces. -/
structure InitEnv where
  scriptFound : String → Bool
  outcome : ChildSpec → Nat → InitOutcome
  sessionOf : ChildSpec → Nat

/-- The effective server name `server.get("name", f"Server-\x7bi\x7d")`
(line 152). -/
def effName (i : Nat) (spec : ChildSpec) : String :=
  spec.name.getD ("Server-" ++ toString i)

/-- The registration loop `for tool in response.tools: tool_mapping[tool.name]
= server_name` (lines 238-239). -/
def registerTools (tools : List String) (server_name : String)
    (m : List (String × String)) : List (String × String) :=
  tools.foldl (fun acc t => dictInsert t server_name acc) m

/-- One iteration of the `for i, server in enumerate(SERVERS)` loop of
`initialize_servers` (lines 151-257): skip on a missing script path or an
unresolvable script, otherwise attempt the handshake; on `earlyFail` skip;
on `listFail` keep the stored session but register no tools; on success
store the session and register every advertised tool. -/
def initStep (env : InitEnv) (st : ProxyState) (i : Nat) (spec : ChildSpec) : ProxyState :=
  if spec.script = "" then st
  else if env.scriptFound spec.script = false then st
  else
    match env.outcome spec HANDSHAKE_TIMEOUT with
    | InitOutcome.earlyFail => st
    | InitOutcome.listFail =>
        { st with sessions := dictInsert (effName i spec) (env.sessionOf spec) st.sessions }
    | InitOutcome.ok tools =>
        { sessions := dictInsert (effName i spec) (env.sessionOf spec) st.sessions
        , tool_mapping := registerTools tools (effName i spec) st.tool_mapping }

/-- The loop of `initialize_servers` started at index `i` with state `st`. -/
def initFrom (env : InitEnv) : Nat → ProxyState → List ChildSpec → ProxyState
  | _, st, [] => st
  | i, st, spec :: rest => initFrom env (i + 1) (initStep env st i spec) rest

/-- `initialize_servers` (lines 139-257): runs the per-spec loop over the
configured list starting from empty `sessions` and `tool_mapping`. -/
def initialize_servers (env : InitEnv) (specs : List ChildSpec) : ProxyState :=
  initFrom env 0 ⟨[], []⟩ specs

/-- What `session.call_tool(tool_name, tool_args)` under `asyncio.wait_for`
does (lines 286-289): returns a result whose `content` is a list of text
items, times out, or raises. -/
inductive ChildCallResult where
  | result (content : List String)
  | timeout
  | raises (msg : String)
  deriving DecidableEq, Repr

/-- The environment `proxy_tool_call` forwards to: session id, tool name,
tool arguments and the timeout passed to `asyncio.wait_for`. -/
def CallEnv : Type :=
  Nat → String → List (String × String) → Nat → ChildCallResult

/-- The input of `proxy_tool_call`: `params.get("tool")` and
`params.get("args", \x7b\x7d)` (lines 263-264). -/
structure Params where
  tool : Option String
  args : List (String × String)

/-- `proxy_tool_call` (lines 260-299).  Returns the result string together
with the broker state after the call; the Python body only ever reads the
module-level `tool_mapping` and `sessions`, so every branch returns `st`
unchanged.  Branches, in source order: missing tool name (line 270),
unknown tool with the list of known tools (line 275), missing session
(line 282), forwarded call returning `result.content[0].text` (line 290,
where an empty `content` raises an IndexError that the outer `except`
turns into a failure string), timeout (line 295), and any raised
exception (line 299). -/
def proxy_tool_call (st : ProxyState) (call : CallEnv) (params : Params) :
    String × ProxyState :=
  match params.tool with
  | none => ("错误: 缺少工具名称", st)
  | some tool_name =>
    if tool_name = "" then ("错误: 缺少工具名称", st)
    else
      match dictGet tool_name st.tool_mapping with
      | none =>
          ("未知工具: " ++ tool_name ++ "。可用工具: " ++
            pyListRepr (dictKeys st.tool_mapping), st)
      | some server_name =>
        match dictGet server_name st.sessions with
        | none => ("服务器会话不存在: " ++ server_name, st)
        | some session =>
          match call session tool_name params.args CALL_TIMEOUT with
          | ChildCallResult.result [] =>
              ("工具调用失败: list index out of range", st)
          | ChildCallResult.result (text :: _) => (text, st)
          | ChildCallResult.timeout => ("工具调用超时: " ++ tool_name, st)
          | ChildCallResult.raises msg => ("工具调用失败: " ++ msg, st)

/-- A JSON value as far as `load_server_config` inspects it: a list, or
anything else (`isinstance(servers, list)` is the only shape check). -/
inductive PyValue where
  | list (items : List PyValue)
  | str (s : String)
  | dict
  | num (n : Int)

/-- What the configuration source looks like to `load_server_config`: the
file is missing (line 82), opening or creating it raises (line 115),
`json.load` raises a decode error (line 109), or parsing succeeds with
some value. -/
inductive ConfigSource where
  | missing
  | ioError (msg : String)
  | parseError (msg : String)
  | parsed (v : PyValue)

/-- `load_server_config` (lines 71-119): a missing file is recreated empty
and yields `[]`; an IO failure, a JSON decode error and a non-list value
all yield `[]`; only a parsed list is returned as the server list. -/
def load_server_config : ConfigSource → List PyValue
  | ConfigSource.missing => []
  | ConfigSource.ioError _ => []
  | ConfigSource.parseError _ => []
  | ConfigSource.parsed (PyValue.list items) => items
  | ConfigSource.parsed _ => []

/-- The tool names that the startup attempt for `spec` gets to register:
the child's advertised tool list when the script path is present and
resolvable and the whole handshake succeeds, and nothing otherwise. -/
def regTools (env : InitEnv) (spec : ChildSpec) : List String :=
  if spec.script = "" then []
  else if env.scriptFound spec.script = false then []
  else
    match env.outcome spec HANDSHAKE_TIMEOUT with
    | InitOutcome.ok tools => tools
    | _ => []

/-- Whether the startup attempt for `spec` registers the tool name `t`. -/
def regB (env : InitEnv) (spec : ChildSpec) (t : String) : Bool :=
  decide (t ∈ regTools env spec)

/-- Two specs never register the same tool name. -/
def disjointReg (env : InitEnv) (a b : ChildSpec) : Prop :=
  ∀ t ∈ regTools env a, t ∉ regTools env b

instance (env : InitEnv) : DecidableRel (disjointReg env) := fun a b =>
  inferInstanceAs (Decidable (∀ t ∈ regTools env a, t ∉ regTools env b))

/-- The startup attempt for `spec` fails before `sessions[server_name] =
session` (line 226): empty script, unresolvable script, or a timeout or
exception at spawn, session setup or the initialize handshake. -/
def failsEarly (env : InitEnv) (spec : ChildSpec) : Prop :=
  spec.script = "" ∨ env.scriptFound spec.script = false ∨
    env.outcome spec HANDSHAKE_TIMEOUT = InitOutcome.earlyFail

/-- The startup attempt for `spec` fails at some stage (spawn, session
setup, initialize, or tool listing), so none of its tools get
registered. -/
def childExcluded (env : InitEnv) (spec : ChildSpec) : Prop :=
  failsEarly env spec ∨ env.outcome spec HANDSHAKE_TIMEOUT = InitOutcome.listFail

/-! Concrete fixtures used to evaluate the definitions on closed inputs:
three child specs and two startup environments. -/

/-- Test child spec named `A` with script `a.py`. -/
def specA : ChildSpec := ⟨some "A", "a.py"⟩

/-- Test child spec named `B` with script `b.py`. -/
def specB : ChildSpec := ⟨some "B", "b.py"⟩

/-- Test child spec named `Bad` with script `bad.py`. -/
def specBad : ChildSpec := ⟨some "Bad", "bad.py"⟩

/-- Environment where every script resolves, `bad.py` hangs at the
handshake, and both `a.py` and `b.py` advertise the single tool `t`. -/
def envDup : InitEnv :=
  { scriptFound := fun _ => true
  , outcome := fun spec _ =>
      if spec.script = "bad.py" then InitOutcome.earlyFail
      else InitOutcome.ok ["t"]
  , sessionOf := fun _ => 0 }

/-- Environment where every script resolves, `bad.py` hangs at the
handshake, `a.py` advertises the tool `ta` and every other script
advertises the tool `tb`. -/
def envDisj : InitEnv :=
  { scriptFound := fun _ => true
  , outcome := fun spec _ =>
      if spec.script = "bad.py" then InitOutcome.earlyFail
      else if spec.script = "a.py" then InitOutcome.ok ["ta"]
      else InitOutcome.ok ["tb"]
  , sessionOf := fun _ => 7 }

/-- Test broker state: server `A` has session `0`, the tools `echo` and
`slow` belong to `A`, and the tool `ghost` dangles on the absent server
`Gone`. -/
def stTest : ProxyState :=
  ⟨[("A", 0)], [("echo", "A"), ("slow", "A"), ("ghost", "Gone")]⟩

/-- Test call environment: an `echo` call returns its `x` argument as the
single content item and every other call times out. -/
def callEcho : CallEnv := fun _session tname args _timeout =>
  if tname = "echo" then
    match dictGet "x" args with
    | some v => ChildCallResult.result [v]
    | none => ChildCallResult.raises "missing x"
  else ChildCallResult.timeout

/-- Test request: call `echo` with argument `x = hello`. -/
def paramsEcho : Params := ⟨some "echo", [("x", "hello")]⟩

/-! Lemmas about the dict model. -/

theorem dictGet_dictInsert {β : Type} (k1 k2 : String) (v : β) (d : List (String × β)) :
    dictGet k1 (dictInsert k2 v d) = if k2 = k1 then some v else dictGet k1 d := by
  induction d with
  | nil => simp [dictGet, dictInsert]
  | cons p rest ih =>
    obtain ⟨ka, va⟩ := p
    by_cases h : ka = k2
    · subst h
      by_cases h1 : ka = k1 <;> simp [dictGet, dictInsert, h1]
    · by_cases h1 : ka = k1
      · subst h1
        have h2 : ¬ k2 = ka := fun hc => h hc.symm
        simp [dictGet, dictInsert, h, h2]
      · simp [dictGet, dictInsert, h, h1, ih]

theorem dictGet_isSome_dictInsert {β : Type} (k1 k2 : String) (v : β)
    (d : List (String × β)) (h : (dictGet k1 d).isSome = true) :
    (dictGet k1 (dictInsert k2 v d)).isSome = true := by
  rw [dictGet_dictInsert]
  by_cases hk : k2 = k1 <;> simp [hk, h]

theorem dictGet_registerTools (t : String) (tools : List String) (s : String)
    (m : List (String × String)) :
    dictGet t (registerTools tools s m) =
      if t ∈ tools then some s else dictGet t m := by
  induction tools generalizing m with
  | nil => simp [registerTools]
  | cons x xs ih =>
    have hstep : registerTools (x :: xs) s m = registerTools xs s (dictInsert x s m) := rfl
    rw [hstep, ih]
    by_cases hx : t ∈ xs
    · simp [hx, List.mem_cons]
    · rw [dictGet_dictInsert]
      by_cases hxt : x = t
      · subst hxt
        simp [hx]
      · have hxt2 : ¬ t = x := fun hc => hxt hc.symm
        simp [hx, hxt, hxt2, List.mem_cons]

/-! Lemmas about the startup loop. -/

theorem initFrom_append (env : InitEnv) (l1 l2 : List ChildSpec) :
    ∀ (i : Nat) (st : ProxyState),
      initFrom env i st (l1 ++ l2) =
        initFrom env (i + l1.length) (initFrom env i st l1) l2 := by
  induction l1 with
  | nil => intro i st; simp [initFrom]
  | cons c rest ih =>
    intro i st
    simp only [List.cons_append, initFrom, List.length_cons, List.append_eq, ih]
    congr 1
    omega

theorem initStep_name_irrel (env : InitEnv) (st : ProxyState) (i j : Nat)
    (spec : ChildSpec) (h : spec.name.isSome = true) :
    initStep env st i spec = initStep env st j spec := by
  obtain ⟨n, hn⟩ := Option.isSome_iff_exists.mp h
  simp [initStep, effName, hn]

theorem initFrom_index_irrel (env : InitEnv) (l : List ChildSpec)
    (hl : ∀ sp ∈ l, sp.name.isSome = true) :
    ∀ (i j : Nat) (st : ProxyState), initFrom env i st l = initFrom env j st l := by
  induction l with
  | nil => intro i j st; rfl
  | cons c rest ih =>
    intro i j st
    have hc : c.name.isSome = true := hl c (List.mem_cons_self c rest)
    have hrest : ∀ sp ∈ rest, sp.name.isSome = true :=
      fun sp hsp => hl sp (List.mem_cons_of_mem c hsp)
    simp only [initFrom]
    rw [initStep_name_irrel env st i j c hc]
    exact ih hrest (i + 1) (j + 1) _

theorem initStep_tool_mapping_congr (env : InitEnv) (st st' : ProxyState)
    (i : Nat) (spec : ChildSpec) (h : st.tool_mapping = st'.tool_mapping) :
    (initStep env st i spec).tool_mapping = (initStep env st' i spec).tool_mapping := by
  unfold initStep
  by_cases h1 : spec.script = "" <;> simp [h1, h]
  by_cases h2 : env.scriptFound spec.script = false <;> simp [h2, h]
  match env.outcome spec HANDSHAKE_TIMEOUT with
  | InitOutcome.earlyFail => simp [h]
  | InitOutcome.listFail => simp [h]
  | InitOutcome.ok tools => simp [h]

theorem initFrom_tool_mapping_congr (env : InitEnv) (l : List ChildSpec) :
    ∀ (i : Nat) (st st' : ProxyState), st.tool_mapping = st'.tool_mapping →
      (initFrom env i st l).tool_mapping = (initFrom env i st' l).tool_mapping := by
  induction l with
  | nil => intro i st st' h; exact h
  | cons c rest ih =>
    intro i st st' h
    simp only [initFrom]
    exact ih (i + 1) _ _ (initStep_tool_mapping_congr env st st' i c h)

theorem initStep_toolGet (env : InitEnv) (st : ProxyState) (i : Nat)
    (spec : ChildSpec) (t : String) :
    dictGet t (initStep env st i spec).tool_mapping =
      if regB env spec t = true then some (effName i spec)
      else dictGet t st.tool_mapping := by
  unfold initStep regB regTools
  by_cases h1 : spec.script = ""
  · simp [h1]
  · by_cases h2 : env.scriptFound spec.script = false
    · simp [h1, h2]
    · rw [if_neg h1, if_neg h2, if_neg h1, if_neg h2]
      cases houtcome : env.outcome spec HANDSHAKE_TIMEOUT with
      | earlyFail => simp
      | listFail => simp
      | ok tools =>
        dsimp only
        rw [dictGet_registerTools]
        by_cases ht : t ∈ tools
        · simp [ht]
        · simp [ht]

theorem initStep_failsEarly (env : InitEnv) (st : ProxyState) (i : Nat)
    (spec : ChildSpec) (h : failsEarly env spec) :
    initStep env st i spec = st := by
  unfold initStep
  by_cases h1 : spec.script = ""
  · simp [h1]
  · by_cases h2 : env.scriptFound spec.script = false
    · simp [h1, h2]
    · rcases h with h | h | h
      · exact absurd h h1
      · exact absurd h h2
      · simp [h1, h2, h]

theorem initStep_excluded_tool_mapping (env : InitEnv) (st : ProxyState)
    (i : Nat) (spec : ChildSpec) (h : childExcluded env spec) :
    (initStep env st i spec).tool_mapping = st.tool_mapping := by
  rcases h with h | h
  · rw [initStep_failsEarly env st i spec h]
  · unfold initStep
    by_cases h1 : spec.script = ""
    · simp [h1]
    · by_cases h2 : env.scriptFound spec.script = false
      · simp [h1, h2]
      · simp [h1, h2, h]

theorem regB_false_of_excluded (env : InitEnv) (spec : ChildSpec)
    (h : childExcluded env spec) (t : String) : regB env spec t = false := by
  unfold regB regTools
  rcases h with (h | h | h) | h
  · simp [h]
  · simp [h]
  · by_cases h1 : spec.script = ""
    · simp [h1]
    · by_cases h2 : env.scriptFound spec.script = false
      · simp [h1, h2]
      · simp [h1, h2, h]
  · by_cases h1 : spec.script = ""
    · simp [h1]
    · by_cases h2 : env.scriptFound spec.script = false
      · simp [h1, h2]
      · simp [h1, h2, h]

theorem regB_true_iff (env : InitEnv) (spec : ChildSpec) (t : String) :
    regB env spec t = true ↔ t ∈ regTools env spec := by
  simp [regB]

theorem initFrom_toolGet_char (env : InitEnv) (t : String) :
    ∀ (specs : List ChildSpec) (i : Nat) (st : ProxyState),
      (∀ sp ∈ specs, sp.name.isSome = true) →
      specs.Pairwise (disjointReg env) →
      dictGet t (initFrom env i st specs).tool_mapping =
        (match specs.find? (fun sp => regB env sp t) with
         | some sp => some (sp.name.getD "")
         | none => dictGet t st.tool_mapping) := by
  intro specs
  induction specs with
  | nil => intro i st _ _; rfl
  | cons c rest ih =>
    intro i st hnames hpw
    have hc : c.name.isSome = true := hnames c (List.mem_cons_self c rest)
    have hrest : ∀ sp ∈ rest, sp.name.isSome = true :=
      fun sp hsp => hnames sp (List.mem_cons_of_mem c hsp)
    have hpw2 := List.pairwise_cons.mp hpw
    by_cases hreg : regB env c t = true
    · have hfind : (c :: rest).find? (fun sp => regB env sp t) = some c :=
        List.find?_cons_of_pos rest hreg
      have hnone : rest.find? (fun sp => regB env sp t) = none := by
        rw [List.find?_eq_none]
        intro sp hsp hcontra
        exact (hpw2.1 sp hsp) t ((regB_true_iff env c t).mp hreg)
          ((regB_true_iff env sp t).mp hcontra)
      simp only [initFrom]
      rw [ih (i + 1) (initStep env st i c) hrest hpw2.2, hfind, hnone,
        initStep_toolGet, if_pos hreg]
      obtain ⟨n, hn⟩ := Option.isSome_iff_exists.mp hc
      simp [effName, hn]
    · have hfind : (c :: rest).find? (fun sp => regB env sp t) =
          rest.find? (fun sp => regB env sp t) :=
        List.find?_cons_of_neg rest hreg
      simp only [initFrom]
      rw [ih (i + 1) (initStep env st i c) hrest hpw2.2, hfind]
      cases hfr : rest.find? (fun sp => regB env sp t) with
      | some sp => rfl
      | none => rw [initStep_toolGet, if_neg hreg]

theorem initStep_ready (env : InitEnv) (st : ProxyState) (i : Nat)
    (spec : ChildSpec)
    (h : ∀ t s, dictGet t st.tool_mapping = some s →
      (dictGet s st.sessions).isSome = true) :
    ∀ t s, dictGet t (initStep env st i spec).tool_mapping = some s →
      (dictGet s (initStep env st i spec).sessions).isSome = true := by
  unfold initStep
  by_cases h1 : spec.script = ""
  · simpa [h1] using h
  · by_cases h2 : env.scriptFound spec.script = false
    · simpa [h1, h2] using h
    · rw [if_neg h1, if_neg h2]
      cases houtcome : env.outcome spec HANDSHAKE_TIMEOUT with
      | earlyFail => exact h
      | listFail =>
        dsimp only
        intro t s hts
        exact dictGet_isSome_dictInsert s (effName i spec) (env.sessionOf spec)
          st.sessions (h t s hts)
      | ok tools =>
        dsimp only
        intro t s hts
        rw [dictGet_registerTools] at hts
        by_cases ht : t ∈ tools
        · rw [if_pos ht] at hts
          injection hts with hs
          subst hs
          simp [dictGet_dictInsert]
        · rw [if_neg ht] at hts
          exact dictGet_isSome_dictInsert s (effName i spec) (env.sessionOf spec)
            st.sessions (h t s hts)

theorem initFrom_ready (env : InitEnv) (specs : List ChildSpec) :
    ∀ (i : Nat) (st : ProxyState),
      (∀ t s, dictGet t st.tool_mapping = some s →
        (dictGet s st.sessions).isSome = true) →
      ∀ t s, dictGet t (initFrom env i st specs).tool_mapping = some s →
        (dictGet s (initFrom env i st specs).sessions).isSome = true := by
  induction specs with
  | nil => intro i st h; exact h
  | cons c rest ih =>
    intro i st h
    exact ih (i + 1) (initStep env st i c) (initStep_ready env st i c h)

theorem reg_unique (env : InitEnv) (specs : List ChildSpec)
    (hpw : specs.Pairwise (disjointReg env)) (t : String) (a b : ChildSpec)
    (ha : a ∈ specs) (hb : b ∈ specs) (hra : regB env a t = true)
    (hrb : regB env b t = true) : a = b := by
  by_contra hne
  have hsym : ∀ {x y : ChildSpec}, disjointReg env x y → disjointReg env y x :=
    fun hxy t2 ht2y ht2x => hxy t2 ht2x ht2y
  exact (List.Pairwise.forall (fun _ _ h => hsym h) hpw ha hb hne) t
    ((regB_true_iff env a t).mp hra) ((regB_true_iff env b t).mp hrb)

/-! Branch lemmas for `proxy_tool_call`, one per outcome path of the
Python function. -/

theorem proxy_missing_name (st : ProxyState) (call : CallEnv) (params : Params)
    (h : params.tool = none) :
    (proxy_tool_call st call params).1 = "错误: 缺少工具名称" := by
  unfold proxy_tool_call
  rw [h]

theorem proxy_empty_name (st : ProxyState) (call : CallEnv) (params : Params)
    (h : params.tool = some "") :
    (proxy_tool_call st call params).1 = "错误: 缺少工具名称" := by
  unfold proxy_tool_call
  rw [h]
  dsimp only
  rw [if_pos rfl]

theorem proxy_unknown (st : ProxyState) (call : CallEnv) (params : Params)
    (t : String) (htool : params.tool = some t) (hne : ¬ t = "")
    (hmiss : dictGet t st.tool_mapping = none) :
    (proxy_tool_call st call params).1 =
      "未知工具: " ++ t ++ "。可用工具: " ++ pyListRepr (dictKeys st.tool_mapping) := by
  unfold proxy_tool_call
  rw [htool]
  dsimp only
  rw [if_neg hne, hmiss]

theorem proxy_no_session (st : ProxyState) (call : CallEnv) (params : Params)
    (t s : String) (htool : params.tool = some t) (hne : ¬ t = "")
    (hmap : dictGet t st.tool_mapping = some s)
    (hsess : dictGet s st.sessions = none) :
    (proxy_tool_call st call params).1 = "服务器会话不存在: " ++ s := by
  unfold proxy_tool_call
  rw [htool]
  dsimp only
  rw [if_neg hne, hmap]
  dsimp only
  rw [hsess]

theorem proxy_success (st : ProxyState) (call : CallEnv) (params : Params)
    (t s : String) (sess : Nat) (text : String) (rest : List String)
    (htool : params.tool = some t) (hne : ¬ t = "")
    (hmap : dictGet t st.tool_mapping = some s)
    (hsess : dictGet s st.sessions = some sess)
    (hcall : call sess t params.args CALL_TIMEOUT =
      ChildCallResult.result (text :: rest)) :
    (proxy_tool_call st call params).1 = text := by
  unfold proxy_tool_call
  rw [htool]
  dsimp only
  rw [if_neg hne, hmap]
  dsimp only
  rw [hsess]
  dsimp only
  rw [hcall]

theorem proxy_empty_content (st : ProxyState) (call : CallEnv) (params : Params)
    (t s : String) (sess : Nat)
    (htool : params.tool = some t) (hne : ¬ t = "")
    (hmap : dictGet t st.tool_mapping = some s)
    (hsess : dictGet s st.sessions = some sess)
    (hcall : call sess t params.args CALL_TIMEOUT = ChildCallResult.result []) :
    (proxy_tool_call st call params).1 = "工具调用失败: list index out of range" := by
  unfold proxy_tool_call
  rw [htool]
  dsimp only
  rw [if_neg hne, hmap]
  dsimp only
  rw [hsess]
  dsimp only
  rw [hcall]

theorem proxy_timeout (st : ProxyState) (call : CallEnv) (params : Params)
    (t s : String) (sess : Nat)
    (htool : params.tool = some t) (hne : ¬ t = "")
    (hmap : dictGet t st.tool_mapping = some s)
    (hsess : dictGet s st.sessions = some sess)
    (hcall : call sess t params.args CALL_TIMEOUT = ChildCallResult.timeout) :
    (proxy_tool_call st call params).1 = "工具调用超时: " ++ t := by
  unfold proxy_tool_call
  rw [htool]
  dsimp only
  rw [if_neg hne, hmap]
  dsimp only
  rw [hsess]
  dsimp only
  rw [hcall]

theorem proxy_raises (st : ProxyState) (call : CallEnv) (params : Params)
    (t s : String) (sess : Nat) (msg : String)
    (htool : params.tool = some t) (hne : ¬ t = "")
    (hmap : dictGet t st.tool_mapping = some s)
    (hsess : dictGet s st.sessions = some sess)
    (hcall : call sess t params.args CALL_TIMEOUT = ChildCallResult.raises msg) :
    (proxy_tool_call st call params).1 = "工具调用失败: " ++ msg := by
  unfold proxy_tool_call
  rw [htool]
  dsimp only
  rw [if_neg hne, hmap]
  dsimp only
  rw [hsess]
  dsimp only
  rw [hcall]

/-! Claim theorems. -/

/-- C1, counterexample: duplicate tool-name registration is NOT
first-writer-wins.  In an environment where children `A` and `B` both
advertise the tool `t`, child `A` alone owns `t` after registering first,
but after both initialize the registry resolves `t` to `B`: the later
registration overwrote the original owner instead of being dropped. -/
theorem duplicate_registration_not_first_writer :
    dictGet "t" (initialize_servers envDup [specA]).tool_mapping = some "A" ∧
    dictGet "t" (initialize_servers envDup [specA, specB]).tool_mapping = some "B" ∧
    ¬ (("B" : String) = "A") := by
  refine ⟨?_, ?_, ?_⟩ <;> decide

/-- C1, amended: duplicate tool-name registration is last-writer-wins.
Whatever registrations happened for the earlier specs `pre`, after a later
child `b` successfully advertises the tool `t`, the registry resolves `t`
to `b`: the assignment `tool_mapping[tool.name] = server_name` (line 239)
silently overwrites any earlier owner. -/
theorem duplicate_registration_last_writer_wins (env : InitEnv)
    (pre : List ChildSpec) (b : ChildSpec) (t nb : String)
    (tools : List String) (hname : b.name = some nb)
    (hscript : ¬ b.script = "")
    (hfound : env.scriptFound b.script = true)
    (houtcome : env.outcome b HANDSHAKE_TIMEOUT = InitOutcome.ok tools)
    (ht : t ∈ tools) :
    dictGet t (initialize_servers env (pre ++ [b])).tool_mapping = some nb := by
  have hrt : regTools env b = tools := by
    unfold regTools
    rw [if_neg hscript, hfound]
    simp [houtcome]
  have hreg : regB env b t = true := (regB_true_iff env b t).mpr (hrt ▸ ht)
  unfold initialize_servers
  rw [initFrom_append]
  simp only [initFrom]
  rw [initStep_toolGet, if_pos hreg]
  simp [effName, hname]

/-- C2: for every invocation whose tool name is not in the registry,
`proxy_tool_call` returns the failure string that names the unknown tool
and interpolates the literal Python list of the currently registered tool
names (line 275); being a total function of the embedded state it raises
nothing. -/
theorem unknown_tool_returns_known_list (st : ProxyState) (call : CallEnv)
    (params : Params) (t : String) (htool : params.tool = some t)
    (hne : ¬ t = "") (hmiss : dictGet t st.tool_mapping = none) :
    (proxy_tool_call st call params).1 =
      "未知工具: " ++ t ++ "。可用工具: " ++ pyListRepr (dictKeys st.tool_mapping) :=
  proxy_unknown st call params t htool hne hmiss

/-- C3: `proxy_tool_call` is total at the dispatcher boundary: on every
input it returns one of the six result strings of the function body —
the missing-name error, the unknown-tool error, the missing-session
error, the child's payload, the timeout message, or the caught-exception
message — and never an uncaught fault. -/
theorem proxy_tool_call_total (st : ProxyState) (call : CallEnv)
    (params : Params) :
    (proxy_tool_call st call params).1 = "错误: 缺少工具名称" ∨
    (∃ t, (proxy_tool_call st call params).1 =
      "未知工具: " ++ t ++ "。可用工具: " ++ pyListRepr (dictKeys st.tool_mapping)) ∨
    (∃ s, (proxy_tool_call st call params).1 = "服务器会话不存在: " ++ s) ∨
    (∃ sess t rest text, params.tool = some t ∧
      call sess t params.args CALL_TIMEOUT = ChildCallResult.result (text :: rest) ∧
      (proxy_tool_call st call params).1 = text) ∨
    (∃ t, (proxy_tool_call st call params).1 = "工具调用超时: " ++ t) ∨
    (∃ msg, (proxy_tool_call st call params).1 = "工具调用失败: " ++ msg) := by
  cases htool : params.tool with
  | none => exact Or.inl (proxy_missing_name st call params htool)
  | some t =>
    by_cases hne : t = ""
    · subst hne
      exact Or.inl (proxy_empty_name st call params htool)
    · cases hmap : dictGet t st.tool_mapping with
      | none =>
        exact Or.inr (Or.inl ⟨t, proxy_unknown st call params t htool hne hmap⟩)
      | some s =>
        cases hsess : dictGet s st.sessions with
        | none =>
          exact Or.inr (Or.inr (Or.inl
            ⟨s, proxy_no_session st call params t s htool hne hmap hsess⟩))
        | some sess =>
          cases hcall : call sess t params.args CALL_TIMEOUT with
          | result content =>
            cases content with
            | nil =>
              refine Or.inr (Or.inr (Or.inr (Or.inr (Or.inr
                ⟨"list index out of range", ?_⟩))))
              rw [proxy_empty_content st call params t s sess htool hne hmap
                hsess hcall]
              rfl
            | cons text rest =>
              exact Or.inr (Or.inr (Or.inr (Or.inl ⟨sess, t, rest, text, rfl,
                hcall, proxy_success st call params t s sess text rest htool hne
                  hmap hsess hcall⟩)))
          | timeout =>
            exact Or.inr (Or.inr (Or.inr (Or.inr (Or.inl
              ⟨t, proxy_timeout st call params t s sess htool hne hmap hsess
                hcall⟩))))
          | raises msg =>
            exact Or.inr (Or.inr (Or.inr (Or.inr (Or.inr
              ⟨msg, proxy_raises st call params t s sess msg htool hne hmap
                hsess hcall⟩))))

/-- C4: on a successful forwarded call the dispatcher returns the child's
text payload verbatim: whenever the owning child's call returns a result
whose first content item is `text`, `proxy_tool_call` returns exactly
`text` (`result.content[0].text`, line 290), with no mutation. -/
theorem forwarded_payload_verbatim (st : ProxyState) (call : CallEnv)
    (params : Params) (t s : String) (sess : Nat) (text : String)
    (rest : List String) (htool : params.tool = some t) (hne : ¬ t = "")
    (hmap : dictGet t st.tool_mapping = some s)
    (hsess : dictGet s st.sessions = some sess)
    (hcall : call sess t params.args CALL_TIMEOUT =
      ChildCallResult.result (text :: rest)) :
    (proxy_tool_call st call params).1 = text :=
  proxy_success st call params t s sess text rest htool hne hmap hsess hcall

/-- C5: every forwarded invocation is passed the fixed 30-second per-call
timeout, which is strictly longer than the 10-second handshake timeout,
and when the forwarded call times out `proxy_tool_call` returns the
failure string naming the tool (line 295) instead of blocking or
raising. -/
theorem call_timeout_policy (st : ProxyState) (call : CallEnv)
    (params : Params) (t s : String) (sess : Nat)
    (htool : params.tool = some t) (hne : ¬ t = "")
    (hmap : dictGet t st.tool_mapping = some s)
    (hsess : dictGet s st.sessions = some sess)
    (hcall : call sess t params.args CALL_TIMEOUT = ChildCallResult.timeout) :
    CALL_TIMEOUT = 30 ∧ HANDSHAKE_TIMEOUT = 10 ∧
      HANDSHAKE_TIMEOUT < CALL_TIMEOUT ∧
      (proxy_tool_call st call params).1 = "工具调用超时: " ++ t :=
  ⟨rfl, rfl, by decide,
    proxy_timeout st call params t s sess htool hne hmap hsess hcall⟩

/-- C6: startup failure isolation.  If the startup attempt for the child
`b` fails at any stage (missing or unresolvable script, spawn, session
setup, initialize, or tool listing), `initialize_servers` registers none
of `b`'s operations and the resulting registry is exactly the one
obtained without `b`; the surrounding children are unaffected and no
exception escapes the loop. -/
theorem startup_failure_isolation (env : InitEnv) (l1 : List ChildSpec)
    (b : ChildSpec) (l2 : List ChildSpec) (hb : childExcluded env b)
    (hl2 : ∀ sp ∈ l2, sp.name.isSome = true) :
    (initialize_servers env (l1 ++ b :: l2)).tool_mapping =
      (initialize_servers env (l1 ++ l2)).tool_mapping := by
  unfold initialize_servers
  rw [initFrom_append, initFrom_append]
  simp only [initFrom]
  have h1 : (initFrom env (0 + l1.length + 1)
      (initStep env (initFrom env 0 ⟨[], []⟩ l1) (0 + l1.length) b) l2).tool_mapping =
      (initFrom env (0 + l1.length + 1) (initFrom env 0 ⟨[], []⟩ l1) l2).tool_mapping :=
    initFrom_tool_mapping_congr env l2 (0 + l1.length + 1) _ _
      (initStep_excluded_tool_mapping env (initFrom env 0 ⟨[], []⟩ l1)
        (0 + l1.length) b hb)
  have h2 : initFrom env (0 + l1.length + 1) (initFrom env 0 ⟨[], []⟩ l1) l2 =
      initFrom env (0 + l1.length) (initFrom env 0 ⟨[], []⟩ l1) l2 :=
    initFrom_index_irrel env l2 hl2 (0 + l1.length + 1) (0 + l1.length) _
  rw [h1, h2]

/-- C7, counterexample: the final registry is NOT independent of the order
of the child spec list.  With two children that both advertise the tool
`t`, the permuted list `[specB, specA]` resolves `t` to `A` while
`[specA, specB]` resolves it to `B`. -/
theorem startup_not_order_independent :
    List.Perm [specB, specA] [specA, specB] ∧
    dictGet "t" (initialize_servers envDup [specB, specA]).tool_mapping = some "A" ∧
    dictGet "t" (initialize_servers envDup [specA, specB]).tool_mapping = some "B" ∧
    ¬ (("A" : String) = "B") := by
  refine ⟨List.Perm.swap specA specB [], ?_, ?_, ?_⟩ <;> decide

/-- C7, amended: when every child spec carries an explicit name and no two
specs successfully advertise a common tool name, the final name-to-owner
mapping produced by `initialize_servers` is independent of the order of
the spec list: every permutation resolves every tool name to the same
owner. -/
theorem startup_order_independent_of_disjoint (env : InitEnv)
    (specs specs2 : List ChildSpec)
    (hnames : ∀ sp ∈ specs, sp.name.isSome = true)
    (hpw : specs.Pairwise (disjointReg env))
    (hperm : List.Perm specs2 specs) (t : String) :
    dictGet t (initialize_servers env specs2).tool_mapping =
      dictGet t (initialize_servers env specs).tool_mapping := by
  have hnames2 : ∀ sp ∈ specs2, sp.name.isSome = true :=
    fun sp hsp => hnames sp (hperm.mem_iff.mp hsp)
  have hsym : ∀ {x y : ChildSpec}, disjointReg env x y → disjointReg env y x :=
    fun hxy t2 ht2y ht2x => hxy t2 ht2x ht2y
  have hpw2 : specs2.Pairwise (disjointReg env) :=
    (hperm.pairwise_iff (fun h => hsym h)).mpr hpw
  unfold initialize_servers
  rw [initFrom_toolGet_char env t specs2 0 ⟨[], []⟩ hnames2 hpw2,
    initFrom_toolGet_char env t specs 0 ⟨[], []⟩ hnames hpw]
  cases h2 : specs2.find? (fun sp => regB env sp t) with
  | some sp =>
    have hmem : sp ∈ specs := hperm.mem_iff.mp (List.mem_of_find?_eq_some h2)
    have hreg : regB env sp t = true := by
      have h3 := List.find?_some h2
      simpa using h3
    cases h1 : specs.find? (fun sp => regB env sp t) with
    | some sq =>
      have hmemq : sq ∈ specs := List.mem_of_find?_eq_some h1
      have hregq : regB env sq t = true := by
        have h3 := List.find?_some h1
        simpa using h3
      rw [reg_unique env specs hpw t sp sq hmem hmemq hreg hregq]
    | none => exact absurd hreg (List.find?_eq_none.mp h1 sp hmem)
  | none =>
    cases h1 : specs.find? (fun sp => regB env sp t) with
    | some sq =>
      have hmemq : sq ∈ specs2 :=
        hperm.mem_iff.mpr (List.mem_of_find?_eq_some h1)
      exact absurd (List.find?_some h1) (List.find?_eq_none.mp h2 sq hmemq)
    | none => rfl

/-- C8: configuration robustness.  Every configuration source that is not
a successfully parsed JSON list — missing file, IO failure, JSON decode
error, or a parsed non-list value — makes `load_server_config` return the
empty child list without raising, and with zero children
`initialize_servers` completes with an empty session table and an empty
registry, so the broker still serves. -/
theorem config_failure_yields_empty (src : ConfigSource) (env : InitEnv)
    (h : ∀ items, ¬ src = ConfigSource.parsed (PyValue.list items)) :
    load_server_config src = [] ∧
      initialize_servers env [] = ⟨[], []⟩ := by
  constructor
  · cases src with
    | missing => rfl
    | ioError m => rfl
    | parseError m => rfl
    | parsed v =>
      cases v with
      | list items => exact absurd rfl (h items)
      | str s => rfl
      | dict => rfl
      | num n => rfl
  · rfl

/-- C9: registry-readiness invariant.  After `initialize_servers`, every
tool name in the registry is owned by a server name that has a stored
session (tools are only registered after `sessions[server_name] =
session` at line 226, and sessions are never removed); and for a
dangling registration whose owning session is absent, `proxy_tool_call`
fails fast with the missing-session message (line 282) without
consulting the child. -/
theorem registry_maps_to_live_session :
    (∀ (env : InitEnv) (specs : List ChildSpec) (t s : String),
      dictGet t (initialize_servers env specs).tool_mapping = some s →
      (dictGet s (initialize_servers env specs).sessions).isSome = true) ∧
    (∀ (st : ProxyState) (call : CallEnv) (params : Params) (t s : String),
      params.tool = some t → ¬ t = "" →
      dictGet t st.tool_mapping = some s → dictGet s st.sessions = none →
      (proxy_tool_call st call params).1 = "服务器会话不存在: " ++ s) := by
  constructor
  · intro env specs t s h
    exact initFrom_ready env specs 0 ⟨[], []⟩
      (fun t0 s0 h0 => by simp [dictGet] at h0) t s h
  · intro st call params t s htool hne hmap hsess
    exact proxy_no_session st call params t s htool hne hmap hsess

/-- C10: invocation leaves the registry untouched.  On every outcome path
— missing name, unknown tool, missing session, success, timeout or
raised exception — `proxy_tool_call` returns the broker state exactly as
it was: `tool_mapping` and `sessions` are only read, never written. -/
theorem proxy_tool_call_preserves_state (st : ProxyState) (call : CallEnv)
    (params : Params) : (proxy_tool_call st call params).2 = st := by
  unfold proxy_tool_call
  cases params.tool with
  | none => rfl
  | some t =>
    dsimp only
    by_cases hne : t = ""
    · rw [if_pos hne]
    · rw [if_neg hne]
      cases dictGet t st.tool_mapping with
      | none => rfl
      | some s =>
        dsimp only
        cases dictGet s st.sessions with
        | none => rfl
        | some sess =>
          dsimp only
          cases call sess t params.args CALL_TIMEOUT with
          | result content => cases content <;> rfl
          | timeout => rfl
          | raises msg => rfl

/-! Witnesses: the hypothesis-bearing claim theorems applied at concrete
inputs, with every definition evaluated. -/

/-- Witness for the amended C1: with both test children advertising `t`,
the registry resolves `t` to the later child `B`. -/
theorem duplicate_registration_last_writer_wins_witness :
    dictGet "t" (initialize_servers envDup ([specA] ++ [specB])).tool_mapping =
      some "B" :=
  duplicate_registration_last_writer_wins envDup [specA] specB "t" "B" ["t"]
    rfl (by decide) rfl (by decide) (by decide)

/-- Witness for C2: calling the unregistered tool `nope` against the test
state returns the unknown-tool failure with the known-tool list. -/
theorem unknown_tool_returns_known_list_witness :
    (proxy_tool_call stTest callEcho ⟨some "nope", []⟩).1 =
      "未知工具: " ++ "nope" ++ "。可用工具: " ++
        pyListRepr (dictKeys stTest.tool_mapping) :=
  unknown_tool_returns_known_list stTest callEcho ⟨some "nope", []⟩ "nope" rfl
    (by decide) (by decide)

/-- Witness for C4: the echo round trip returns `hello` verbatim. -/
theorem forwarded_payload_verbatim_witness :
    (proxy_tool_call stTest callEcho paramsEcho).1 = "hello" :=
  forwarded_payload_verbatim stTest callEcho paramsEcho "echo" "A" 0 "hello" []
    rfl (by decide) (by decide) (by decide) (by decide)

/-- Witness for C5: the `slow` tool times out and the timeout failure
names it, under the 30-second call timeout and 10-second handshake
timeout. -/
theorem call_timeout_policy_witness :
    CALL_TIMEOUT = 30 ∧ HANDSHAKE_TIMEOUT = 10 ∧
      HANDSHAKE_TIMEOUT < CALL_TIMEOUT ∧
      (proxy_tool_call stTest callEcho ⟨some "slow", []⟩).1 =
        "工具调用超时: " ++ "slow" :=
  call_timeout_policy stTest callEcho ⟨some "slow", []⟩ "slow" "A" 0 rfl
    (by decide) (by decide) (by decide) (by decide)

/-- Witness for C6: one hanging child between two healthy children leaves
the registry exactly as if the hanging child were absent. -/
theorem startup_failure_isolation_witness :
    (initialize_servers envDisj ([specA] ++ specBad :: [specB])).tool_mapping =
      (initialize_servers envDisj ([specA] ++ [specB])).tool_mapping :=
  startup_failure_isolation envDisj [specA] specBad [specB]
    (Or.inl (Or.inr (Or.inr (by decide))))
    (by
      intro sp hsp
      rw [List.mem_singleton] at hsp
      subst hsp
      rfl)

/-- Witness for the amended C7: with disjoint tool names, swapping the two
test children does not change the owner of `ta`. -/
theorem startup_order_independent_of_disjoint_witness :
    dictGet "ta" (initialize_servers envDisj [specB, specA]).tool_mapping =
      dictGet "ta" (initialize_servers envDisj [specA, specB]).tool_mapping :=
  startup_order_independent_of_disjoint envDisj [specA, specB] [specB, specA]
    (by
      intro sp hsp
      rcases List.mem_cons.mp hsp with h | h
      · subst h; rfl
      · rw [List.mem_singleton] at h
        subst h
        rfl)
    (by
      refine List.Pairwise.cons ?_ (List.Pairwise.cons ?_ List.Pairwise.nil)
      · intro sp hsp
        rw [List.mem_singleton] at hsp
        subst hsp
        decide
      · intro sp hsp
        exact absurd hsp (List.not_mem_nil sp))
    (List.Perm.swap specA specB []) "ta"

/-- Witness for C8: a JSON decode error yields the empty child list and
startup with zero children completes with empty state. -/
theorem config_failure_yields_empty_witness :
    load_server_config (ConfigSource.parseError "boom") = [] ∧
      initialize_servers envDup [] = ⟨[], []⟩ :=
  config_failure_yields_empty (ConfigSource.parseError "boom") envDup
    (fun _ hc => ConfigSource.noConfusion hc)

/-- Witness for C9: after startup the owner of `ta` has a live session,
and the dangling `ghost` registration fails fast with the
missing-session message. -/
theorem registry_maps_to_live_session_witness :
    (dictGet "A" (initialize_servers envDisj [specA]).sessions).isSome = true ∧
    (proxy_tool_call stTest callEcho ⟨some "ghost", []⟩).1 =
      "服务器会话不存在: " ++ "Gone" :=
  ⟨registry_maps_to_live_session.1 envDisj [specA] "ta" "A" (by decide),
    registry_maps_to_live_session.2 stTest callEcho ⟨some "ghost", []⟩ "ghost"
      "Gone" rfl (by decide) (by decide) (by decide)⟩

end ProxyServer
